import Mathlib

/-!
Shallow embedding of the event-hub backend HTTP handlers
(src/backend/internal/handlers/{products,warehouse,categories}_handler.go)
over an explicit document-store state, together with proofs of the
specification claims about them.

The Mongo collections are modelled as Lean lists of documents; each
fallible store step (collection acquisition, delete, insert, update,
find, decode) is driven by an explicit boolean fault flag so that the
error branches of the Go code are represented faithfully.  HTTP
responses are modelled by a status code plus either a typed body or an
error message (fiber.NewError).
-/

namespace EventHub

/-- Models Go strings.TrimSpace for ASCII input: removes leading and
trailing whitespace characters from the string. -/
def isSpaceChar (c : Char) : Bool :=
  c = ' ' || c = '\t' || c = '\n' || c = '\r' || c = '\x0b' || c = '\x0c'

/-- Models strings.TrimSpace (restricted to ASCII whitespace). -/
def trimSpace (s : String) : String :=
  ⟨((s.data.dropWhile isSpaceChar).reverse.dropWhile isSpaceChar).reverse⟩

/-- Hexadecimal digit test, as used by UUID parsing. -/
def isHexDigit (c : Char) : Bool :=
  c.isDigit || ('a' ≤ c && c ≤ 'f') || ('A' ≤ c && c ≤ 'F')

/-- Position-indexed shape check for the canonical 36-character UUID text
form 8-4-4-4-12: hyphens exactly at positions 8, 13, 18, 23 and hex
digits everywhere else. -/
def uuidShape : List Char → Nat → Bool
  | [], n => n == 36
  | c :: cs, n =>
    (if n == 8 || n == 13 || n == 18 || n == 23 then c = '-' else isHexDigit c)
      && uuidShape cs (n + 1)

/-- A string is in canonical UUID text form. -/
def isCanonicalUUID (s : String) : Bool := uuidShape s.data 0

/-- Lower-cases every character; UUID equality in the Go library is on
the parsed bytes, hence case-insensitive on the hex text. -/
def lowerHex (s : String) : String := ⟨s.data.map Char.toLower⟩

/-- Models github.com/google/uuid Parse, restricted to the canonical
36-character form the system uses on the wire; a parsed UUID is
represented by its canonical lower-case text. -/
def uuidParse (s : String) : Option String :=
  if isCanonicalUUID s then some (lowerHex s) else none

/-- Models models.Products: a persisted product document.  Category is
an Option because UpdateProduct may store an explicit BSON null for it
(none models the stored null / absent value). -/
structure Products where
  ProductID : String
  StockID : String
  ProductName : String
  Category : Option String
  Unit : String
  ProductQty : Int
  deriving Repr, DecidableEq

/-- Models models.Warehouse: a persisted stock document. -/
structure Warehouse where
  StockID : String
  UserID : String
  StockName : String
  deriving Repr, DecidableEq

/-- Models models.Categories: a persisted category document. -/
structure Categories where
  CategoryID : String
  StockID : String
  CategoryName : String
  Discription : String
  deriving Repr, DecidableEq

/-- The document store: the three collections the handlers touch. -/
structure Store where
  products : List Products
  warehouses : List Warehouse
  categories : List Categories
  deriving Repr, DecidableEq

/-- An HTTP response: success with a status code and JSON body, or a
fiber.NewError with a status code and message. -/
inductive Resp (α : Type) where
  | ok (status : Nat) (body : α)
  | err (status : Nat) (msg : String)
  deriving Repr, DecidableEq

/-- Models collection.DeleteOne with an equality filter: removes the
first matching document and reports the deleted count (0 or 1). -/
def deleteOneBy {α : Type} (p : α → Bool) : List α → List α × Nat
  | [] => ([], 0)
  | x :: xs =>
    if p x then (xs, 1)
    else
      match deleteOneBy p xs with
      | (ys, n) => (x :: ys, n)

/-- Models collection.DeleteMany with an equality filter: removes every
matching document and reports the deleted count. -/
def deleteManyBy {α : Type} (p : α → Bool) (l : List α) : List α × Nat :=
  (l.filter fun x => !p x, (l.filter p).length)

/-- Models collection.FindOneAndUpdate with ReturnDocument(After): the
first matching document is replaced by its image under f, and that image
is returned; none when no document matches (mongo.ErrNoDocuments). -/
def updateFirstBy {α : Type} (p : α → Bool) (f : α → α) : List α → List α × Option α
  | [] => ([], none)
  | x :: xs =>
    if p x then (f x :: xs, some (f x))
    else
      match updateFirstBy p f xs with
      | (ys, r) => (x :: ys, r)

/-! ## Warehouse handlers (warehouse_handler.go) -/

/-- Fault flags for the fallible store steps of DeleteStock, in the
order the Go code performs them. -/
structure DeleteStockFaults where
  warehouseColFail : Bool
  productsColFail : Bool
  deleteStockFail : Bool
  deleteProductsFail : Bool
  deriving Repr, DecidableEq

/-- DeleteStock after the stockId parameter has parsed to stockUUID:
acquire both collections, DeleteOne the stock by StockID, then
DeleteMany the products by StockID, responding with both counts
(deleted_stock, deleted_relatedProducts). -/
def deleteStockCore (stockUUID : String) (f : DeleteStockFaults) (st : Store) :
    Store × Resp (Nat × Nat) :=
  if f.warehouseColFail then (st, .err 500 "database unavailable")
  else if f.productsColFail then (st, .err 500 "database unavailable")
  else if f.deleteStockFail then (st, .err 500 "failed to delete stock")
  else
    match deleteOneBy (fun w => w.StockID = stockUUID) st.warehouses with
    | (ws, nStock) =>
      if f.deleteProductsFail then
        ({ st with warehouses := ws }, .err 500 "failed to delete related products")
      else
        match deleteManyBy (fun pr => pr.StockID = stockUUID) st.products with
        | (ps, nProd) =>
          ({ st with warehouses := ws, products := ps }, .ok 200 (nStock, nProd))

/-- Models handlers.DeleteStock: validate the stockId path parameter,
then run the two-step cascading delete. -/
def DeleteStock (stockIdParam : String) (f : DeleteStockFaults) (st : Store) :
    Store × Resp (Nat × Nat) :=
  if trimSpace stockIdParam = "" then (st, .err 400 "stockId is required")
  else
    match uuidParse (trimSpace stockIdParam) with
    | none => (st, .err 400 "stockId must be a valid UUID")
    | some stockUUID => deleteStockCore stockUUID f st

/-- Fault flags for the fallible store steps of a list handler. -/
structure ListFaults where
  colFail : Bool
  findFail : Bool
  decodeFail : Bool
  deriving Repr, DecidableEq

/-- Models handlers.ListWarehouse: validate the userId query parameter
and return every warehouse document whose UserID equals it. -/
def ListWarehouse (userIdParam : String) (f : ListFaults) (st : Store) :
    Resp (List Warehouse) :=
  if trimSpace userIdParam = "" then .err 400 "userId is required"
  else
    match uuidParse (trimSpace userIdParam) with
    | none => .err 400 "userId must be a valid UUID"
    | some userUUID =>
      if f.colFail then .err 500 "database unavailable"
      else if f.findFail then .err 500 "failed to fetch warehouse"
      else if f.decodeFail then .err 500 "failed to decode warehouse"
      else .ok 200 (st.warehouses.filter fun w => w.UserID = userUUID)

/-! ## Products handlers (products_handler.go) -/

/-- Fault flags for DeleteProduct: collection acquisition and the
DeleteOne call. -/
structure DeleteProductFaults where
  colFail : Bool
  deleteFail : Bool
  deriving Repr, DecidableEq

/-- Models handlers.DeleteProduct: validate the productId path
parameter, DeleteOne by ProductID, and respond with the deleted count
(deleted_product). -/
def DeleteProduct (productIdParam : String) (f : DeleteProductFaults) (st : Store) :
    Store × Resp Nat :=
  if trimSpace productIdParam = "" then (st, .err 400 "productId is required")
  else
    match uuidParse (trimSpace productIdParam) with
    | none => (st, .err 400 "productId must be a valid UUID")
    | some productUUID =>
      if f.colFail then (st, .err 500 "database unavailable")
      else if f.deleteFail then (st, .err 500 "failed to delete product")
      else
        match deleteOneBy (fun pr => pr.ProductID = productUUID) st.products with
        | (ps, n) => ({ st with products := ps }, .ok 200 n)

/-- Models handlers.ListProducts: validate the stockId query parameter
and return every product document whose StockID equals it. -/
def ListProducts (stockIdParam : String) (f : ListFaults) (st : Store) :
    Resp (List Products) :=
  if trimSpace stockIdParam = "" then .err 400 "stockId is required"
  else
    match uuidParse (trimSpace stockIdParam) with
    | none => .err 400 "stockId must be a valid UUID"
    | some stockUUID =>
      if f.colFail then .err 500 "database unavailable"
      else if f.findFail then .err 500 "failed to fetch products"
      else if f.decodeFail then .err 500 "failed to decode products"
      else .ok 200 (st.products.filter fun pr => pr.StockID = stockUUID)

/-- Models the createProductRequest JSON body (after BodyParser). -/
structure createProductRequest where
  StockID : String
  ProductName : String
  Category : String
  Unit : String
  ProductQty : Int
  deriving Repr, DecidableEq

/-- Fault flags for a create handler: collection acquisition and the
insert call. -/
structure CreateFaults where
  colFail : Bool
  insertFail : Bool
  deriving Repr, DecidableEq

/-- Models handlers.CreateProduct: trim all string fields, reject empty
StockID or ProductName, reject the zero quantity sentinel, parse
StockID, insert the new document (newID models the uuid.New result) and
respond 201 with it. -/
def CreateProduct (req : createProductRequest) (newID : String)
    (f : CreateFaults) (st : Store) : Store × Resp Products :=
  if trimSpace req.StockID = "" || trimSpace req.ProductName = "" then
    (st, .err 400 "StockID and ProductName are required")
  else if req.ProductQty = 0 then (st, .err 400 "ProductQty must be provided")
  else
    match uuidParse (trimSpace req.StockID) with
    | none => (st, .err 400 "StockID must be a valid UUID")
    | some stockUUID =>
      if f.colFail then (st, .err 500 "database unavailable")
      else
        let product : Products :=
          { ProductID := newID
            StockID := stockUUID
            ProductName := trimSpace req.ProductName
            Category := some (trimSpace req.Category)
            Unit := trimSpace req.Unit
            ProductQty := req.ProductQty }
        if f.insertFail then (st, .err 500 "failed to create product")
        else ({ st with products := st.products ++ [product] }, .ok 201 product)

/-- Models the updateProductRequest JSON body: each field is an optional
pointer, none when absent from the body. -/
structure updateProductRequest where
  ProductName : Option String
  Category : Option String
  Unit : Option String
  ProductQty : Option Int
  deriving Repr, DecidableEq

/-- Models the bson.M updates document built by UpdateProduct: for each
key, none means the key is absent; Category carries Option String with
an inner none for the explicit null value. -/
structure ProductUpdates where
  ProductName : Option String := none
  Category : Option (Option String) := none
  Unit : Option String := none
  ProductQty : Option Int := none
  deriving Repr, DecidableEq

/-- Number of keys in the updates document (len(updates)). -/
def ProductUpdates.size (u : ProductUpdates) : Nat :=
  (if u.ProductName.isSome then 1 else 0) + (if u.Category.isSome then 1 else 0)
    + (if u.Unit.isSome then 1 else 0) + (if u.ProductQty.isSome then 1 else 0)

/-- Models the field-by-field construction of the updates document in
UpdateProduct, with the same rejection rules and in the same order as
the Go code: a present ProductName trimming to empty is rejected; a
present Category trimming to empty is stored as null; a present Unit is
stored trimmed (even when empty); a present negative ProductQty is
rejected. -/
def buildUpdates (req : updateProductRequest) : Except String ProductUpdates :=
  match
    (match req.ProductName with
     | none => Except.ok ({} : ProductUpdates)
     | some s =>
       if trimSpace s = "" then Except.error "ProductName cannot be empty"
       else Except.ok { ProductName := some (trimSpace s) }) with
  | .error m => .error m
  | .ok u1 =>
    let u2 :=
      match req.Category with
      | none => u1
      | some s =>
        if trimSpace s = "" then { u1 with Category := some none }
        else { u1 with Category := some (some (trimSpace s)) }
    let u3 :=
      match req.Unit with
      | none => u2
      | some s => { u2 with Unit := some (trimSpace s) }
    match req.ProductQty with
    | none => .ok u3
    | some q =>
      if q < 0 then .error "ProductQty cannot be negative"
      else .ok { u3 with ProductQty := some q }

/-- Models the bson $set application of the updates document to a
product document. -/
def applyUpdates (u : ProductUpdates) (p : Products) : Products :=
  { p with
    ProductName := u.ProductName.getD p.ProductName
    Category := u.Category.getD p.Category
    Unit := u.Unit.getD p.Unit
    ProductQty := u.ProductQty.getD p.ProductQty }

/-- Fault flags for UpdateProduct: collection acquisition, the
FindOneAndUpdate call (a driver error other than ErrNoDocuments), and
decoding the returned document. -/
structure UpdateFaults where
  colFail : Bool
  updateFail : Bool
  decodeFail : Bool
  deriving Repr, DecidableEq

/-- UpdateProduct after the productId parameter has parsed and the
updates document has been built nonempty: FindOneAndUpdate by ProductID
with $set, 404 on no match, 200 with the updated document otherwise. -/
def updateProductCore (productUUID : String) (upd : ProductUpdates)
    (f : UpdateFaults) (st : Store) : Store × Resp Products :=
  if f.colFail then (st, .err 500 "database unavailable")
  else if f.updateFail then (st, .err 500 "failed to update product")
  else
    match updateFirstBy (fun pr => pr.ProductID = productUUID) (applyUpdates upd) st.products with
    | (_, none) => (st, .err 404 "product not found")
    | (ps, some updated) =>
      if f.decodeFail then
        ({ st with products := ps }, .err 500 "failed to decode updated product")
      else ({ st with products := ps }, .ok 200 updated)

/-- Models handlers.UpdateProduct: validate the productId path
parameter, build the updates document (rejecting invalid fields), reject
an empty updates document, then run the store update. -/
def UpdateProduct (productIdParam : String) (req : updateProductRequest)
    (f : UpdateFaults) (st : Store) : Store × Resp Products :=
  if trimSpace productIdParam = "" then (st, .err 400 "productId is required")
  else
    match uuidParse (trimSpace productIdParam) with
    | none => (st, .err 400 "productId must be a valid UUID")
    | some productUUID =>
      match buildUpdates req with
      | .error m => (st, .err 400 m)
      | .ok upd =>
        if upd.size = 0 then (st, .err 400 "provide at least one field to update")
        else updateProductCore productUUID upd f st

/-! ## Categories handler (categories_handler.go) -/

/-- Models the categoryRequest JSON body element. -/
structure categoryRequest where
  StockID : String
  CategoryName : String
  Discription : String
  deriving Repr, DecidableEq

/-- Validity of one bulk-create element: after trimming, StockID and
CategoryName are nonempty and StockID parses as a UUID. -/
def catValid (cat : categoryRequest) : Bool :=
  !(trimSpace cat.StockID = "" || trimSpace cat.CategoryName = "")
    && (uuidParse (trimSpace cat.StockID)).isSome

/-- The client-error message CreateCategories produces for the invalid
element at index i. -/
def catErrMsg (i : Nat) (cat : categoryRequest) : String :=
  if trimSpace cat.StockID = "" || trimSpace cat.CategoryName = "" then
    "StockID and CategoryName are required at index " ++ toString i
  else "StockID at index " ++ toString i ++ " must be a valid UUID"

/-- Models the validation loop of CreateCategories starting at index i:
the first invalid element aborts with a 400 message naming its index;
otherwise the list of generated category documents is produced (gen i
models the uuid.New result for the element at index i). -/
def validateCategories (gen : Nat → String) :
    List categoryRequest → Nat → Except String (List Categories)
  | [], _ => .ok []
  | cat :: rest, i =>
    if trimSpace cat.StockID = "" || trimSpace cat.CategoryName = "" then
      .error ("StockID and CategoryName are required at index " ++ toString i)
    else
      match uuidParse (trimSpace cat.StockID) with
      | none => .error ("StockID at index " ++ toString i ++ " must be a valid UUID")
      | some stockUUID =>
        match validateCategories gen rest (i + 1) with
        | .error m => .error m
        | .ok docs =>
          .ok ({ CategoryID := gen i
                 StockID := stockUUID
                 CategoryName := trimSpace cat.CategoryName
                 Discription := trimSpace cat.Discription } :: docs)

/-- Models handlers.CreateCategories: reject an empty array, validate
every element (first invalid index aborts with 400), and only then issue
the single InsertMany of all generated documents, responding 201 with
them. -/
def CreateCategories (payload : List categoryRequest) (gen : Nat → String)
    (f : CreateFaults) (st : Store) : Store × Resp (List Categories) :=
  if payload.length = 0 then (st, .err 400 "at least one category is required")
  else
    match validateCategories gen payload 0 with
    | .error m => (st, .err 400 m)
    | .ok docs =>
      if f.colFail then (st, .err 500 "database unavailable")
      else if f.insertFail then (st, .err 500 "failed to create categories")
      else ({ st with categories := st.categories ++ docs }, .ok 201 docs)

/-! ## Helper lemmas about the store-operation models -/

theorem uuidParse_ne_empty {s u : String} (h : uuidParse s = some u) : s ≠ "" := by
  intro he
  subst he
  have hnone : uuidParse "" = none := rfl
  rw [hnone] at h
  exact Option.noConfusion h

theorem deleteOneBy_count_le_one {α : Type} (p : α → Bool) (l : List α) :
    (deleteOneBy p l).2 ≤ 1 := by
  induction l with
  | nil => simp [deleteOneBy]
  | cons x xs ih =>
    by_cases hx : p x = true
    · simp [deleteOneBy, hx]
    · simp only [deleteOneBy, Bool.not_eq_true] at hx ⊢
      rw [if_neg (by simp [hx])]
      exact ih

theorem deleteOneBy_nomatch {α : Type} (p : α → Bool) (l : List α)
    (h : ∀ x ∈ l, p x = false) : deleteOneBy p l = (l, 0) := by
  induction l with
  | nil => rfl
  | cons x xs ih =>
    have hx : p x = false := h x (List.mem_cons_self x xs)
    have hrest : deleteOneBy p xs = (xs, 0) :=
      ih fun y hy => h y (List.mem_cons_of_mem x hy)
    simp [deleteOneBy, hx, hrest]

theorem updateFirstBy_nomatch {α : Type} (p : α → Bool) (f : α → α) (l : List α)
    (h : ∀ x ∈ l, p x = false) : updateFirstBy p f l = (l, none) := by
  induction l with
  | nil => rfl
  | cons x xs ih =>
    have hx : p x = false := h x (List.mem_cons_self x xs)
    have hrest : updateFirstBy p f xs = (xs, none) :=
      ih fun y hy => h y (List.mem_cons_of_mem x hy)
    simp [updateFirstBy, hx, hrest]

theorem updateFirstBy_match {α : Type} (p : α → Bool) (f : α → α) (l : List α)
    (h : ∃ x ∈ l, p x = true) :
    ∃ ys y, updateFirstBy p f l = (ys, some (f y)) ∧ y ∈ l ∧ p y = true ∧ f y ∈ ys := by
  induction l with
  | nil => obtain ⟨x, hx, _⟩ := h; exact absurd hx (List.not_mem_nil x)
  | cons x xs ih =>
    by_cases hx : p x = true
    · exact ⟨f x :: xs, x, by simp [updateFirstBy, hx], List.mem_cons_self x xs, hx,
        List.mem_cons_self _ _⟩
    · obtain ⟨z, hz, hpz⟩ := h
      rcases List.mem_cons.mp hz with rfl | hz'
      · exact absurd hpz hx
      · obtain ⟨ys, y, heq, hmem, hpy, hfy⟩ := ih ⟨z, hz', hpz⟩
        refine ⟨x :: ys, y, ?_, List.mem_cons_of_mem x hmem, hpy,
          List.mem_cons_of_mem x hfy⟩
        simp [updateFirstBy, hx, heq]

/-! ## Claim C1: warehouse delete cascade and its non-transactionality -/

/-- C1: for a warehouse delete request whose stockId is a valid UUID
(and with the store collections reachable), the handler first removes
the stock record whose StockID equals the identifier, then as an
independent second step removes all products whose StockID equals it,
responding on success with both deleted counts (deleted_stock,
deleted_relatedProducts); when the second step fails after the first
succeeded, the stock record is already gone while the products remain
untouched — there is no compensating rollback. -/
theorem deleteStock_cascade_no_rollback (stockIdParam u : String)
    (f : DeleteStockFaults) (st : Store)
    (hu : uuidParse (trimSpace stockIdParam) = some u)
    (h1 : f.warehouseColFail = false) (h2 : f.productsColFail = false)
    (h3 : f.deleteStockFail = false) :
    (f.deleteProductsFail = false →
      DeleteStock stockIdParam f st =
        ({ st with
            warehouses := (deleteOneBy (fun w => w.StockID = u) st.warehouses).1
            products := st.products.filter fun pr => !(pr.StockID = u : Bool) },
          .ok 200 ((deleteOneBy (fun w => w.StockID = u) st.warehouses).2,
            (st.products.filter fun pr => (pr.StockID = u : Bool)).length)))
    ∧ (f.deleteProductsFail = true →
      DeleteStock stockIdParam f st =
        ({ st with warehouses := (deleteOneBy (fun w => w.StockID = u) st.warehouses).1 },
          .err 500 "failed to delete related products")) := by
  have hne : trimSpace stockIdParam ≠ "" := uuidParse_ne_empty hu
  constructor
  · intro h4
    simp only [DeleteStock, if_neg hne, hu, deleteStockCore, h1, h2, h3, h4,
      Bool.false_eq_true, if_false, deleteManyBy]
  · intro h4
    simp only [DeleteStock, if_neg hne, hu, deleteStockCore, h1, h2, h3, h4,
      Bool.false_eq_true, if_false, if_true]

def uuidA : String := "11111111-1111-1111-1111-111111111111"

def uuidB : String := "22222222-2222-2222-2222-222222222222"

def uuidC : String := "33333333-3333-3333-3333-333333333333"

/-- A sample product owned by stock uuidA. -/
def prodA : Products :=
  { ProductID := uuidB, StockID := uuidA, ProductName := "apple"
    Category := some "fruit", Unit := "kg", ProductQty := 3 }

/-- A sample stock owned by user uuidC. -/
def stockA : Warehouse := { StockID := uuidA, UserID := uuidC, StockName := "Main" }

/-- A sample store holding stockA and its product prodA. -/
def storeA : Store := { products := [prodA], warehouses := [stockA], categories := [] }

/-- Witness for C1: deleting stock uuidA from storeA removes the stock
and its one product and reports both counts. -/
theorem deleteStock_cascade_no_rollback_witness :
    DeleteStock uuidA ⟨false, false, false, false⟩ storeA =
      ({ products := [], warehouses := [], categories := [] }, .ok 200 (1, 1)) :=
  (deleteStock_cascade_no_rollback uuidA uuidA ⟨false, false, false, false⟩ storeA
    (by decide) rfl rfl rfl).1 rfl

/-! ## Claim C8: the product bulk delete is unconditional -/

/-- C8: in the warehouse delete handler the bulk delete of products by
StockID is issued even when the stock delete removed zero documents:
deleting a stock identifier that matches no warehouse record still
removes every product whose StockID equals it, and the response reports
deleted_stock 0 together with the (possibly nonzero) count of deleted
related products. -/
theorem deleteStock_products_deleted_without_stock (stockIdParam u : String) (st : Store)
    (hu : uuidParse (trimSpace stockIdParam) = some u)
    (hns : ∀ w ∈ st.warehouses, w.StockID ≠ u) :
    DeleteStock stockIdParam ⟨false, false, false, false⟩ st =
      ({ st with products := st.products.filter fun pr => !(pr.StockID = u : Bool) },
        .ok 200 (0, (st.products.filter fun pr => (pr.StockID = u : Bool)).length)) := by
  have hne : trimSpace stockIdParam ≠ "" := uuidParse_ne_empty hu
  have hdel : deleteOneBy (fun w => (w.StockID = u : Bool)) st.warehouses =
      (st.warehouses, 0) :=
    deleteOneBy_nomatch _ _ fun w hw => by simp [hns w hw]
  simp only [DeleteStock, if_neg hne, hu, deleteStockCore, Bool.false_eq_true, if_false,
    hdel, deleteManyBy]

/-- A store holding prodA (owned by stock uuidA) but no warehouse
records at all. -/
def storeB : Store := { products := [prodA], warehouses := [], categories := [] }

/-- Witness for C8: deleting the nonexistent stock uuidA from storeB
still deletes prodA and reports counts (0, 1). -/
theorem deleteStock_products_deleted_without_stock_witness :
    DeleteStock uuidA ⟨false, false, false, false⟩ storeB =
      ({ storeB with products := [] }, .ok 200 (0, 1)) :=
  deleteStock_products_deleted_without_stock uuidA uuidA storeB (by decide) (by decide)

/-! ## Claim C5: product delete reports a count and never errors on absence -/

/-- C5: for a product delete request whose identifier is a valid UUID
(and with the store reachable), the handler always responds with success
carrying the number of documents removed, which is at most 1; in
particular when no product with that identifier exists, the response is
a success with count 0 and the store is unchanged — never an error. -/
theorem deleteProduct_count_response (productIdParam u : String) (st : Store)
    (hu : uuidParse (trimSpace productIdParam) = some u) :
    (DeleteProduct productIdParam ⟨false, false⟩ st =
        ({ st with products := (deleteOneBy (fun pr => pr.ProductID = u) st.products).1 },
          .ok 200 (deleteOneBy (fun pr => (pr.ProductID = u : Bool)) st.products).2)
      ∧ (deleteOneBy (fun pr => (pr.ProductID = u : Bool)) st.products).2 ≤ 1)
    ∧ ((∀ pr ∈ st.products, pr.ProductID ≠ u) →
        DeleteProduct productIdParam ⟨false, false⟩ st = (st, .ok 200 0)) := by
  have hne : trimSpace productIdParam ≠ "" := uuidParse_ne_empty hu
  refine ⟨⟨?_, deleteOneBy_count_le_one _ _⟩, ?_⟩
  · simp only [DeleteProduct, if_neg hne, hu, Bool.false_eq_true, if_false]
  · intro hnx
    have hdel : deleteOneBy (fun pr => (pr.ProductID = u : Bool)) st.products =
        (st.products, 0) :=
      deleteOneBy_nomatch _ _ fun pr hpr => by simp [hnx pr hpr]
    simp only [DeleteProduct, if_neg hne, hu, Bool.false_eq_true, if_false, hdel]

/-- Witness for C5: deleting the existing product uuidB from storeA
reports count 1; deleting the nonexistent product uuidA reports a 200
success with count 0. -/
theorem deleteProduct_count_response_witness :
    DeleteProduct uuidB ⟨false, false⟩ storeA = ({ storeA with products := [] }, .ok 200 1)
    ∧ DeleteProduct uuidA ⟨false, false⟩ storeA = (storeA, .ok 200 0) :=
  ⟨(deleteProduct_count_response uuidB uuidB storeA (by decide)).1.1,
    (deleteProduct_count_response uuidA uuidA storeA (by decide)).2 (by decide)⟩

/-! ## Claim C6: list handlers return exactly the matching records -/

/-- C6: for a list request whose owning-identifier query parameter trims
to a valid UUID (and with the store reachable), ListProducts returns
exactly the persisted products whose StockID equals the parsed value and
ListWarehouse exactly the persisted warehouses whose UserID equals it;
when no record matches, the result is a success with the empty list, not
an error. -/
theorem list_returns_exact_matches (stockIdParam userIdParam su uu : String) (st : Store)
    (hsu : uuidParse (trimSpace stockIdParam) = some su)
    (huu : uuidParse (trimSpace userIdParam) = some uu) :
    (ListProducts stockIdParam ⟨false, false, false⟩ st =
        .ok 200 (st.products.filter fun pr => pr.StockID = su)
      ∧ ((∀ pr ∈ st.products, pr.StockID ≠ su) →
          ListProducts stockIdParam ⟨false, false, false⟩ st = .ok 200 []))
    ∧ (ListWarehouse userIdParam ⟨false, false, false⟩ st =
        .ok 200 (st.warehouses.filter fun w => w.UserID = uu)
      ∧ ((∀ w ∈ st.warehouses, w.UserID ≠ uu) →
          ListWarehouse userIdParam ⟨false, false, false⟩ st = .ok 200 [])) := by
  have hne1 : trimSpace stockIdParam ≠ "" := uuidParse_ne_empty hsu
  have hne2 : trimSpace userIdParam ≠ "" := uuidParse_ne_empty huu
  refine ⟨⟨?_, fun hnx => ?_⟩, ⟨?_, fun hnx => ?_⟩⟩
  · simp only [ListProducts, if_neg hne1, hsu, Bool.false_eq_true, if_false]
  · have hfil : (st.products.filter fun pr => (pr.StockID = su : Bool)) = [] :=
      List.filter_eq_nil_iff.mpr fun pr hpr => by simp [hnx pr hpr]
    simp only [ListProducts, if_neg hne1, hsu, Bool.false_eq_true, if_false, hfil]
  · simp only [ListWarehouse, if_neg hne2, huu, Bool.false_eq_true, if_false]
  · have hfil : (st.warehouses.filter fun w => (w.UserID = uu : Bool)) = [] :=
      List.filter_eq_nil_iff.mpr fun w hw => by simp [hnx w hw]
    simp only [ListWarehouse, if_neg hne2, huu, Bool.false_eq_true, if_false, hfil]

/-- Witness for C6: listing products of stock uuidA in storeA returns
exactly [prodA]; listing warehouses of user uuidC returns exactly
[stockA]. -/
theorem list_returns_exact_matches_witness :
    ListProducts uuidA ⟨false, false, false⟩ storeA = .ok 200 [prodA]
    ∧ ListWarehouse uuidC ⟨false, false, false⟩ storeA = .ok 200 [stockA] :=
  ⟨(list_returns_exact_matches uuidA uuidC uuidA uuidC storeA (by decide) (by decide)).1.1,
    (list_returns_exact_matches uuidA uuidC uuidA uuidC storeA (by decide) (by decide)).2.1⟩

/-! ## Claim C9: product creation accepts negative quantities -/

/-- C9: product creation rejects only the exact quantity zero: a
creation request with a valid StockID, a nonempty ProductName and a
negative ProductQty passes validation, the insert is performed, and the
201 response carries the created product with the negative quantity
unchanged. -/
theorem createProduct_accepts_negative_qty (req : createProductRequest)
    (newID u : String) (st : Store)
    (hu : uuidParse (trimSpace req.StockID) = some u)
    (hname : ¬(trimSpace req.ProductName = ""))
    (hqty : req.ProductQty < 0) :
    CreateProduct req newID ⟨false, false⟩ st =
      ({ st with products := st.products ++
          [{ ProductID := newID, StockID := u
             ProductName := trimSpace req.ProductName
             Category := some (trimSpace req.Category)
             Unit := trimSpace req.Unit
             ProductQty := req.ProductQty }] },
        .ok 201
          { ProductID := newID, StockID := u
            ProductName := trimSpace req.ProductName
            Category := some (trimSpace req.Category)
            Unit := trimSpace req.Unit
            ProductQty := req.ProductQty })
    ∧ req.ProductQty < 0 := by
  have hsid : ¬(trimSpace req.StockID = "") := uuidParse_ne_empty hu
  have hq0 : ¬(req.ProductQty = 0) := by omega
  refine ⟨?_, hqty⟩
  simp only [CreateProduct, hsid, hname, decide_False, Bool.or_self, Bool.false_eq_true,
    if_false, hq0, hu]

/-- An empty store. -/
def store0 : Store := { products := [], warehouses := [], categories := [] }

/-- A creation request with quantity -2 for stock uuidA. -/
def reqNegQty : createProductRequest :=
  { StockID := uuidA, ProductName := "apple", Category := "fruit", Unit := "kg"
    ProductQty := -2 }

/-- Witness for C9: creating reqNegQty in the empty store succeeds with
the stored quantity -2. -/
theorem createProduct_accepts_negative_qty_witness :
    CreateProduct reqNegQty uuidB ⟨false, false⟩ store0 =
      ({ store0 with products :=
          [{ ProductID := uuidB, StockID := uuidA, ProductName := "apple"
             Category := some "fruit", Unit := "kg", ProductQty := -2 }] },
        .ok 201
          { ProductID := uuidB, StockID := uuidA, ProductName := "apple"
            Category := some "fruit", Unit := "kg", ProductQty := -2 })
    ∧ ((-2 : Int) < 0) :=
  createProduct_accepts_negative_qty reqNegQty uuidB uuidA store0
    (by decide) (by decide) (by decide)

/-! ## Claim C4: an empty update body is rejected before any store access -/

/-- C4: a product update request with a well-formed path identifier
whose body contains none of the recognized fields is answered with a 400
client error and the store is left untouched, whatever the identifier
(existing or not) and whatever the state of the store connection — the
handler never reaches a store operation. -/
theorem updateProduct_empty_body_rejected (productIdParam u : String)
    (f : UpdateFaults) (st : Store)
    (hu : uuidParse (trimSpace productIdParam) = some u) :
    UpdateProduct productIdParam ⟨none, none, none, none⟩ f st =
      (st, .err 400 "provide at least one field to update") := by
  have hne : trimSpace productIdParam ≠ "" := uuidParse_ne_empty hu
  simp only [UpdateProduct, if_neg hne, hu, buildUpdates]
  rfl

/-- Witness for C4: updating the existing product uuidB of storeA with
an empty body is rejected with 400 and changes nothing, even with every
fault flag raised. -/
theorem updateProduct_empty_body_rejected_witness :
    UpdateProduct uuidB ⟨none, none, none, none⟩ ⟨true, true, true⟩ storeA =
      (storeA, .err 400 "provide at least one field to update") :=
  updateProduct_empty_body_rejected uuidB uuidB ⟨true, true, true⟩ storeA (by decide)

/-! ## Claim C3: update of a nonexistent identifier yields not-found -/

/-- C3: a product update request whose path identifier is a well-formed
UUID matching no persisted product — and whose body passes validation
with at least one recognized field, with the store reachable — is
answered with the 404 not-found error, never a server error. -/
theorem updateProduct_nonexistent_not_found (productIdParam u : String)
    (req : updateProductRequest) (upd : ProductUpdates) (st : Store)
    (hu : uuidParse (trimSpace productIdParam) = some u)
    (hb : buildUpdates req = .ok upd)
    (hsz : ¬(upd.size = 0))
    (hnx : ∀ pr ∈ st.products, pr.ProductID ≠ u) :
    UpdateProduct productIdParam req ⟨false, false, false⟩ st =
      (st, .err 404 "product not found") := by
  have hne : trimSpace productIdParam ≠ "" := uuidParse_ne_empty hu
  have hnm : updateFirstBy (fun pr => (pr.ProductID = u : Bool)) (applyUpdates upd)
      st.products = (st.products, none) :=
    updateFirstBy_nomatch _ _ _ fun pr hpr => by simp [hnx pr hpr]
  simp only [UpdateProduct, if_neg hne, hu, hb, if_neg hsz, updateProductCore,
    Bool.false_eq_true, if_false, hnm]

/-- Witness for C3: renaming the nonexistent product uuidC in storeA
yields 404 and leaves the store unchanged. -/
theorem updateProduct_nonexistent_not_found_witness :
    UpdateProduct uuidC ⟨some "pear", none, none, none⟩ ⟨false, false, false⟩ storeA =
      (storeA, .err 404 "product not found") :=
  updateProduct_nonexistent_not_found uuidC uuidC ⟨some "pear", none, none, none⟩
    ⟨some "pear", none, none, none⟩ storeA (by decide) rfl (by decide) (by decide)

/-! ## Claims C7 and C10: whitespace-only optional fields in update -/

theorem updateFirstBy_some {α : Type} (p : α → Bool) (f : α → α) (l : List α) :
    ∀ (ys : List α) (z : α), updateFirstBy p f l = (ys, some z) →
      (∃ y ∈ l, p y = true ∧ z = f y) ∧ z ∈ ys := by
  induction l with
  | nil => intro ys z h; simp [updateFirstBy] at h
  | cons x xs ih =>
    intro ys z h
    cases hpx : p x with
    | true =>
      simp only [updateFirstBy, hpx, if_true, Prod.mk.injEq, Option.some.injEq] at h
      obtain ⟨h1, h2⟩ := h
      subst h1
      subst h2
      exact ⟨⟨x, List.mem_cons_self x xs, hpx, rfl⟩, List.mem_cons_self _ _⟩
    | false =>
      rcases hys : updateFirstBy p f xs with ⟨ys', r⟩
      simp only [updateFirstBy, hpx, Bool.false_eq_true, if_false, hys,
        Prod.mk.injEq] at h
      obtain ⟨h1, h2⟩ := h
      subst h1
      subst h2
      obtain ⟨⟨y, hy, hpy, hzy⟩, hzys⟩ := ih ys' z hys
      exact ⟨⟨y, List.mem_cons_of_mem x hy, hpy, hzy⟩, List.mem_cons_of_mem x hzys⟩

/-- C7: a product update whose body provides only a Category value that
trims to the empty string succeeds (given the identifier matches a
persisted product and the store is reachable) and stores Category as the
explicit absence none — not as the literal whitespace string and not
omitted from the update. -/
theorem updateProduct_category_whitespace_null (productIdParam u s : String)
    (st : Store) (ps : List Products) (updated : Products)
    (hu : uuidParse (trimSpace productIdParam) = some u)
    (hs : trimSpace s = "")
    (hm : updateFirstBy (fun pr => (pr.ProductID = u : Bool))
      (applyUpdates ⟨none, some none, none, none⟩) st.products = (ps, some updated)) :
    UpdateProduct productIdParam ⟨none, some s, none, none⟩ ⟨false, false, false⟩ st =
      ({ st with products := ps }, .ok 200 updated)
    ∧ updated.Category = none ∧ updated ∈ ps := by
  have hne : trimSpace productIdParam ≠ "" := uuidParse_ne_empty hu
  have hb : buildUpdates ⟨none, some s, none, none⟩ =
      .ok ⟨none, some none, none, none⟩ := by
    simp [buildUpdates, hs]
  have hsz : ¬((⟨none, some none, none, none⟩ : ProductUpdates).size = 0) := by decide
  obtain ⟨⟨y, hy, hpy, hzy⟩, hzys⟩ := updateFirstBy_some _ _ _ _ _ hm
  refine ⟨?_, ?_, hzys⟩
  · simp only [UpdateProduct, if_neg hne, hu, hb, if_neg hsz, updateProductCore,
      Bool.false_eq_true, if_false, hm]
  · subst hzy
    rfl

/-- Witness for C7: updating prodA (identifier uuidB) in storeA with a
whitespace-only Category stores Category as none. -/
theorem updateProduct_category_whitespace_null_witness :
    UpdateProduct uuidB ⟨none, some "  ", none, none⟩ ⟨false, false, false⟩ storeA =
      ({ storeA with products := [{ prodA with Category := none }] },
        .ok 200 { prodA with Category := none })
    ∧ ({ prodA with Category := none } : Products).Category = none
    ∧ ({ prodA with Category := none } : Products) ∈ [{ prodA with Category := none }] :=
  updateProduct_category_whitespace_null uuidB uuidB "  " storeA
    [{ prodA with Category := none }] { prodA with Category := none }
    (by decide) (by decide) (by decide)

/-- C10: a product update whose body provides only a Unit value that
trims to the empty string is neither rejected (as ProductName would be)
nor stored as null (as Category would be): given the identifier matches
a persisted product and the store is reachable, the update succeeds and
stores Unit as the empty string. -/
theorem updateProduct_unit_whitespace_empty_string (productIdParam u s : String)
    (st : Store) (ps : List Products) (updated : Products)
    (hu : uuidParse (trimSpace productIdParam) = some u)
    (hs : trimSpace s = "")
    (hm : updateFirstBy (fun pr => (pr.ProductID = u : Bool))
      (applyUpdates ⟨none, none, some "", none⟩) st.products = (ps, some updated)) :
    UpdateProduct productIdParam ⟨none, none, some s, none⟩ ⟨false, false, false⟩ st =
      ({ st with products := ps }, .ok 200 updated)
    ∧ updated.Unit = "" ∧ updated ∈ ps := by
  have hne : trimSpace productIdParam ≠ "" := uuidParse_ne_empty hu
  have hb : buildUpdates ⟨none, none, some s, none⟩ =
      .ok ⟨none, none, some "", none⟩ := by
    simp [buildUpdates, hs]
  have hsz : ¬((⟨none, none, some "", none⟩ : ProductUpdates).size = 0) := by decide
  obtain ⟨⟨y, hy, hpy, hzy⟩, hzys⟩ := updateFirstBy_some _ _ _ _ _ hm
  refine ⟨?_, ?_, hzys⟩
  · simp only [UpdateProduct, if_neg hne, hu, hb, if_neg hsz, updateProductCore,
      Bool.false_eq_true, if_false, hm]
  · subst hzy
    rfl

/-- Witness for C10: updating prodA (identifier uuidB) in storeA with a
whitespace-only Unit stores Unit as the empty string. -/
theorem updateProduct_unit_whitespace_empty_string_witness :
    UpdateProduct uuidB ⟨none, none, some " ", none⟩ ⟨false, false, false⟩ storeA =
      ({ storeA with products := [{ prodA with Unit := "" }] },
        .ok 200 { prodA with Unit := "" })
    ∧ ({ prodA with Unit := "" } : Products).Unit = ""
    ∧ ({ prodA with Unit := "" } : Products) ∈ [{ prodA with Unit := "" }] :=
  updateProduct_unit_whitespace_empty_string uuidB uuidB " " storeA
    [{ prodA with Unit := "" }] { prodA with Unit := "" }
    (by decide) (by decide) (by decide)

/-! ## Claim C2: bulk category creation validates everything first -/

theorem validateCategories_all_valid (gen : Nat → String) (l : List categoryRequest) :
    ∀ i : Nat, (∀ d ∈ l, catValid d = true) →
      ∃ docs : List Categories, validateCategories gen l i = .ok docs
        ∧ docs.length = l.length := by
  induction l with
  | nil => intro i _; exact ⟨[], rfl, rfl⟩
  | cons a rest ih =>
    intro i hall
    have ha : catValid a = true := hall a (List.mem_cons_self a rest)
    have hreq : (trimSpace a.StockID = "" || trimSpace a.CategoryName = "") = false := by
      rcases Bool.and_eq_true .. |>.mp (catValid.eq_def a ▸ ha) with ⟨h1, _⟩
      simpa using h1
    have hsome : (uuidParse (trimSpace a.StockID)).isSome = true := by
      rcases Bool.and_eq_true .. |>.mp (catValid.eq_def a ▸ ha) with ⟨_, h2⟩
      exact h2
    obtain ⟨su, hsu⟩ := Option.isSome_iff_exists.mp hsome
    obtain ⟨docs, hdocs, hlen⟩ :=
      ih (i + 1) fun d hd => hall d (List.mem_cons_of_mem a hd)
    refine ⟨⟨gen i, su, trimSpace a.CategoryName, trimSpace a.Discription⟩ :: docs,
      ?_, ?_⟩
    · simp only [validateCategories, hreq, Bool.false_eq_true, if_false, hsu, hdocs]
    · simpa using hlen

theorem validateCategories_first_invalid (gen : Nat → String) (l : List categoryRequest) :
    ∀ (i j : Nat) (c : categoryRequest), l.get? j = some c → catValid c = false →
      (∀ k, k < j → ∀ d, l.get? k = some d → catValid d = true) →
      validateCategories gen l i = .error (catErrMsg (i + j) c) := by
  induction l with
  | nil => intro i j c hj; simp at hj
  | cons a rest ih =>
    intro i j c hj hc hbef
    cases j with
    | zero =>
      have hac : a = c := by simpa using hj
      subst hac
      by_cases hreq : (trimSpace a.StockID = "" || trimSpace a.CategoryName = "") = true
      · simp only [validateCategories, hreq, if_true, catErrMsg, Nat.add_zero]
      · have hreq' : (trimSpace a.StockID = "" || trimSpace a.CategoryName = "") = false :=
          Bool.not_eq_true _ |>.mp hreq
        have hnone : uuidParse (trimSpace a.StockID) = none := by
          rcases hp : uuidParse (trimSpace a.StockID) with _ | su
          · rfl
          · exfalso
            have : catValid a = true := by
              simp [catValid, hp]
              simpa using hreq'
            rw [this] at hc
            exact Bool.noConfusion hc
        simp only [validateCategories, hreq', Bool.false_eq_true, if_false, hnone,
          catErrMsg, Nat.add_zero]
    | succ j' =>
      have ha : catValid a = true := hbef 0 (Nat.succ_pos j') a rfl
      have hreq : (trimSpace a.StockID = "" || trimSpace a.CategoryName = "") = false := by
        rcases Bool.and_eq_true .. |>.mp (catValid.eq_def a ▸ ha) with ⟨h1, _⟩
        simpa using h1
      have hsome : (uuidParse (trimSpace a.StockID)).isSome = true := by
        rcases Bool.and_eq_true .. |>.mp (catValid.eq_def a ▸ ha) with ⟨_, h2⟩
        exact h2
      obtain ⟨su, hsu⟩ := Option.isSome_iff_exists.mp hsome
      have hrest : validateCategories gen rest (i + 1) =
          .error (catErrMsg ((i + 1) + j') c) :=
        ih (i + 1) j' c (by simpa using hj) hc
          fun k hk d hd => hbef (k + 1) (Nat.succ_lt_succ hk) d (by simpa using hd)
      have harith : (i + 1) + j' = i + (j' + 1) := by omega
      simp only [validateCategories, hreq, Bool.false_eq_true, if_false, hsu, hrest,
        harith]

/-- C2: a bulk category-creation request whose first invalid element
(empty StockID or CategoryName after trimming, or a StockID that does
not parse as a UUID) sits at index j is answered with a 400 client error
whose message names index j, and the store is unchanged — no insert is
issued before validation of every element completes; and whenever every
element validates, a single batch insert of all generated records is
issued and answered 201. -/
theorem createCategories_first_invalid_aborts (payload : List categoryRequest)
    (gen : Nat → String) (f : CreateFaults) (st : Store) (j : Nat) (c : categoryRequest)
    (hj : payload.get? j = some c) (hc : catValid c = false)
    (hbef : ∀ k, k < j → ∀ d, payload.get? k = some d → catValid d = true) :
    CreateCategories payload gen f st = (st, .err 400 (catErrMsg j c))
    ∧ (∀ (payload2 : List categoryRequest) (gen2 : Nat → String) (st2 : Store),
        payload2 ≠ [] → (∀ d ∈ payload2, catValid d = true) →
        ∃ docs : List Categories, validateCategories gen2 payload2 0 = .ok docs
          ∧ docs.length = payload2.length
          ∧ CreateCategories payload2 gen2 ⟨false, false⟩ st2 =
              ({ st2 with categories := st2.categories ++ docs }, .ok 201 docs)) := by
  constructor
  · have hlen : ¬(payload.length = 0) := by
      cases payload with
      | nil => simp at hj
      | cons a rest => simp
    have hval : validateCategories gen payload 0 = .error (catErrMsg (0 + j) c) :=
      validateCategories_first_invalid gen payload 0 j c hj hc hbef
    rw [Nat.zero_add] at hval
    simp only [CreateCategories, hlen, if_false, hval]
  · intro payload2 gen2 st2 hne hall
    obtain ⟨docs, hdocs, hlen⟩ := validateCategories_all_valid gen2 payload2 0 hall
    have hlen2 : ¬(payload2.length = 0) := by
      exact Nat.pos_iff_ne_zero.mp (List.length_pos.mpr hne)
    refine ⟨docs, hdocs, hlen, ?_⟩
    simp only [CreateCategories, hlen2, if_false, hdocs, Bool.false_eq_true]

/-- A valid category element for stock uuidA. -/
def catGood : categoryRequest :=
  { StockID := uuidA, CategoryName := "fruit", Discription := "fresh" }

/-- An invalid category element: CategoryName trims to empty. -/
def catBad : categoryRequest :=
  { StockID := uuidA, CategoryName := "  ", Discription := "" }

/-- Witness for C2: in the payload [catGood, catBad] the first invalid
element is at index 1, and bulk creation aborts with the 400 error
naming index 1 while persisting nothing. -/
theorem createCategories_first_invalid_aborts_witness :
    CreateCategories [catGood, catBad] (fun _ => uuidB) ⟨false, false⟩ storeA =
      (storeA, .err 400 "StockID and CategoryName are required at index 1") :=
  (createCategories_first_invalid_aborts [catGood, catBad] (fun _ => uuidB)
    ⟨false, false⟩ storeA 1 catBad rfl (by decide)
    (fun k hk d hd => by
      have hk0 : k = 0 := by omega
      subst hk0
      have hd' : d = catGood := by simpa using hd.symm
      subst hd'
      decide)).1

end EventHub
